import Mathlib

/-!
# Multi-Carrier Policy Normalization & Persistency Classification Engine

A shallow embedding of the persistency-analysis core of the repository:
the carrier-specific date parsers, classifiers, time-window filters,
aggregation counters, status breakdowns, lapse extractors and the
agent-scope filter, together with theorems settling the frozen claims.

Modelling conventions for the JavaScript/TypeScript source:

* A JS `Date` is modelled at day resolution by its day count since the
  Unix epoch (`JSDate`); every date the carrier feeds produce is a plain
  calendar day at local midnight.  An *Invalid Date* (a `Date` holding
  `NaN`) is modelled as `none` at `Option JSDate`; mirroring JS, every
  ordered comparison involving it is `false` (`jsLeInt`).  The `Date`
  constructor `new Date(y, m, d)` never throws: out-of-range month and
  day components roll over, and non-numeric (`NaN`) components yield an
  Invalid Date.  Consequently `try`/`catch` blocks around code that only
  builds dates from strings never fire, and the embedding is total.
* String primitives (`split`, `trim`, `includes`) are re-implemented
  structurally over `List Char` so that concrete inputs evaluate inside
  the kernel; all separators used by the source are single characters.
* JS `Number(string)` is modelled by `jsNumber` on the integer-literal
  domain the carrier date columns use: the empty/whitespace string is
  `0`, an optionally signed decimal integer is its value, and anything
  else is `NaN` (`none`).  Fractional, exponent and hexadecimal literals
  do not occur in the modelled columns.
* JS IEEE-754 arithmetic on counts and percentages is modelled by exact
  rational arithmetic (`ℚ`); `Math.round` rounds half toward `+∞`.
* `Math.random()` and the generic `Date.parse` / `new Date(string)`
  fallbacks are modelled as oracle parameters, so theorems quantify over
  every behaviour the engine could exhibit.
-/

namespace Persistency

/-! ## String primitives over character lists -/

/-- ASCII whitespace recognised by `String.prototype.trim` on the
carrier feeds (space, tab, newline, carriage return, vertical tab,
form feed). -/
def isJsWhitespace (c : Char) : Bool :=
  c == ' ' || c == '\t' || c == '\n' || c == '\r' || c == '\x0b' || c == '\x0c'

/-- Characters of a string with leading and trailing whitespace
removed, as `trim()` produces. -/
def trimChars (l : List Char) : List Char :=
  ((l.dropWhile isJsWhitespace).reverse.dropWhile isJsWhitespace).reverse

/-- `s.trim()`. -/
def jsTrim (s : String) : String := String.mk (trimChars s.data)

/-- Splitting a character list on a separator character, keeping empty
segments, as `String.prototype.split` does (`''.split('/')` is
`['']`). -/
def splitOnChar (c : Char) : List Char → List (List Char)
  | [] => [[]]
  | x :: xs =>
    if x = c then [] :: splitOnChar c xs
    else
      match splitOnChar c xs with
      | [] => [[x]]
      | g :: gs => (x :: g) :: gs

/-- `s.split(c)` for a single-character separator. -/
def jsSplit (s : String) (c : Char) : List String :=
  (splitOnChar c s.data).map String.mk

/-- `s.includes(c)` for a single character. -/
def jsIncludesChar (s : String) (c : Char) : Bool := s.data.contains c

/-- Value of an unsigned decimal-digit run; `none` when a non-digit
appears or the run is empty. -/
def digitsToNatGo : List Char → Nat → Option Nat
  | [], acc => some acc
  | c :: cs, acc => if c.isDigit then digitsToNatGo cs (acc * 10 + (c.toNat - 48)) else none

/-- Value of a non-empty unsigned decimal-digit run. -/
def digitsToNat : List Char → Option Nat
  | [] => none
  | l => digitsToNatGo l 0

/-- JS `Number(s)` on the integer-literal domain of the carrier date
columns: empty/whitespace strings are `0`, optionally signed decimal
integers are their value, anything else is `NaN` (`none`). -/
def jsNumber (s : String) : Option Int :=
  match trimChars s.data with
  | [] => some 0
  | '-' :: rest => (digitsToNat rest).map (fun n => -(n : Int))
  | l => (digitsToNat l).map (fun n => (n : Int))

/-- `Number` applied to a possibly-`undefined` destructured component:
`undefined` coerces to `NaN`. -/
def jsNumberCell : Option String → Option Int
  | none => none
  | some s => jsNumber s

/-- Truthiness of a nullable string (`null` and `''` are falsy). -/
def jsTruthy : Option String → Bool
  | none => false
  | some s => s ≠ ""

/-! ## Calendar arithmetic (proleptic Gregorian, days since 1970-01-01) -/

/-- Day number of the first day of month `m` (1-based) of year `y`,
counted from 1970-01-01 (day 0).  Standard days-from-civil algorithm;
realises the normalisation the JS `Date(y, m, d)` constructor
performs. -/
def daysFromCivilMonth (y m : Int) : Int :=
  let y2 := if m ≤ 2 then y - 1 else y
  let era := y2.fdiv 400
  let yoe := y2 - era * 400
  let mp := if 2 < m then m - 3 else m + 9
  let doy := (153 * mp + 2) / 5
  let doe := yoe * 365 + yoe / 4 - yoe / 100 + doy
  era * 146097 + doe - 719468

/-- Civil date `(year, month 1..12, day 1..31)` of an epoch day number. -/
def civilFromDays (z : Int) : Int × Int × Int :=
  let z2 := z + 719468
  let era := z2.fdiv 146097
  let doe := z2 - era * 146097
  let yoe := (doe - doe / 1460 + doe / 36524 - doe / 146096) / 365
  let y := yoe + era * 400
  let doy := doe - (365 * yoe + yoe / 4 - yoe / 100)
  let mp := (5 * doy + 2) / 153
  let d := doy - (153 * mp + 2) / 5 + 1
  let m := if mp < 10 then mp + 3 else mp - 9
  (if m ≤ 2 then y + 1 else y, m, d)

/-- A valid JS `Date` at day resolution: its day count since the epoch. -/
structure JSDate where
  epochDays : Int
deriving DecidableEq, Repr

/-- `new Date(year, monthIndex, day)` on finite arguments: months are
0-based and arbitrary (rolling into the year), the day offset is added
to the first of the normalised month (rolling into adjacent months),
exactly as ECMAScript `MakeDay` does. -/
def jsMakeDate (year monthIndex day : Int) : JSDate :=
  let ym := year * 12 + monthIndex
  ⟨daysFromCivilMonth (ym.fdiv 12) (ym.emod 12 + 1) + (day - 1)⟩

/-- JS `Date.prototype.getFullYear`. -/
def getFullYear (d : JSDate) : Int := (civilFromDays d.epochDays).1

/-- JS `Date.prototype.getMonth` (0-based). -/
def getMonth (d : JSDate) : Int := (civilFromDays d.epochDays).2.1 - 1

/-- JS `Date.prototype.getDate` (day of month, 1-based). -/
def getDayOfMonth (d : JSDate) : Int := (civilFromDays d.epochDays).2.2

/-- JS `a <= b` on numbers that may be `NaN` (`none`): any comparison
involving `NaN` is `false`. -/
def jsLeInt : Option Int → Option Int → Bool
  | some a, some b => a ≤ b
  | _, _ => false

/-- Milliseconds per day (`1000 * 60 * 60 * 24`). -/
def msPerDay : Int := 86400000

/-! ## Shared analysis types -/

/-- Persistency outcome of a classified policy. -/
inductive Outcome
  | positive
  | negative
  | neutral
deriving DecidableEq, Repr

/-- JS `Math.round`: nearest integer, halves toward `+∞`. -/
def jsRound (q : ℚ) : Int := Int.floor (q + 1/2)

/-- `Math.round(q * 100) / 100`: rounding to two decimal places as the
source computes every percentage field. -/
def round2 (q : ℚ) : ℚ := (jsRound (q * 100) : ℚ) / 100

/-- The per-window `AnalysisResult` record of the source. -/
structure AnalysisResult where
  positivePercentage : ℚ
  positiveCount : Nat
  negativePercentage : ℚ
  negativeCount : Nat
deriving DecidableEq, Repr

/-- One entry of a `StatusBreakdown` object, in property-insertion
order: status label, `count` and `percentage`. -/
structure BreakdownEntry where
  status : String
  count : Nat
  percentage : ℚ
deriving DecidableEq, Repr

/-- A unified lapse candidate as produced by the extractors. -/
structure LapseCandidate where
  id : String
  carrier : String
  insuredFirstName : String
  insuredLastName : String
  phone : Option String
  statuses : List String
  daysToLapse : Option Int
deriving DecidableEq, Repr

/-- Sum of the `count` fields of a breakdown. -/
def breakdownTotalCount (b : List BreakdownEntry) : Nat :=
  (b.map (fun e => e.count)).sum

/-! ## American Amicable (part_007) -/

/-- An American Amicable CSV row (`AMAMPolicyData`), restricted to the
fields the analysis reads.  `Phone` is accessed through the index
signature and may be absent. -/
structure AMAMPolicy where
  WritingAgent : String
  Policy : String
  Status : String
  PolicyDate : String
  PaidtoDate : String
  FirstName : String
  LastName : String
  Phone : Option String
deriving DecidableEq, Repr

/-- `parseAMAMDate`: split on `/`, coerce the first three components
with `Number`, and build `new Date(year, month - 1, day)`.  A missing or
non-numeric component gives `NaN`, hence an Invalid Date (`none`); the
function never throws on a string argument. -/
def parseAMAMDate (dateStr : String) : Option JSDate :=
  let parts := jsSplit dateStr '/'
  match jsNumberCell parts[0]?, jsNumberCell parts[1]?, jsNumberCell parts[2]? with
  | some month, some day, some year => some (jsMakeDate year (month - 1) day)
  | _, _, _ => none

/-- `monthsDifference(date1, date2)` on valid dates:
`(y2 - y1) * 12 + (m2 - m1)`, day of month ignored. -/
def monthsDifference (date1 date2 : JSDate) : Int :=
  (getFullYear date2 - getFullYear date1) * 12 + (getMonth date2 - getMonth date1)

/-- `monthsDifference` lifted to possibly-invalid dates: any Invalid
Date operand makes the result `NaN`. -/
def monthsDifferenceOpt : Option JSDate → Option JSDate → Option Int
  | some a, some b => some (monthsDifference a b)
  | _, _ => none

/-- Status vocabulary `positiveStatuses` of `classifyAMAMPolicy`. -/
def amamPositiveStatuses : List String := ["Active", "DeathClaim"]

/-- Status vocabulary `negativeStatuses` of `classifyAMAMPolicy`. -/
def amamNegativeStatuses : List String :=
  ["Declined", "Withdrawn", "Incomplete", "InfNotTaken", "Terminated", "NotTaken",
   "RPU", "Act-Ret Item", "Pending", "IssNotPaid", "NeedReqmnt"]

/-- `classifyAMAMPolicy(status, policyDate, paidToDate)`.  On the
`DeathClaim` branch the source computes `monthsDiff <= 24 ? 'negative' :
'positive'`; when either date string fails to parse, the JS `Date`
constructor yields an Invalid Date rather than throwing, `monthsDiff` is
`NaN`, the comparison is `false`, and the `positive` arm is taken — the
surrounding `try`/`catch` never fires for string inputs. -/
def classifyAMAMPolicy (status policyDate paidToDate : String) : Outcome :=
  if status = "DeathClaim" then
    if jsLeInt (monthsDifferenceOpt (parseAMAMDate policyDate) (parseAMAMDate paidToDate))
        (some 24) then
      .negative
    else
      .positive
  else if amamPositiveStatuses.contains status then .positive
  else if amamNegativeStatuses.contains status then .negative
  else .negative

/-- The cutoff `new Date(now.getFullYear(), now.getMonth() - monthsBack,
now.getDate())` common to every filter-style time-range function. -/
def calendarCutoff (now : JSDate) (monthsBack : Int) : JSDate :=
  jsMakeDate (getFullYear now) (getMonth now - monthsBack) (getDayOfMonth now)

/-- `filterAMAMPoliciesByTimeRange(policies, monthsBack)`, with the
clock reading `now` made explicit.  A `PolicyDate` that fails to parse
yields an Invalid Date, whose comparison against the cutoff is `false`,
so the row is dropped (the `catch` arm of the source is equivalent). -/
def filterAMAMPoliciesByTimeRange (now : JSDate) (policies : List AMAMPolicy)
    (monthsBack : Int) : List AMAMPolicy :=
  let cutoffDate := calendarCutoff now monthsBack
  policies.filter fun policy =>
    match parseAMAMDate policy.PolicyDate with
    | some d => cutoffDate.epochDays ≤ d.epochDays
    | none => false

/-- `analyzeAMAMTimeRange(policies)`: count classifications (the AMAM
classifier is binary, so every policy lands in one of the two buckets)
and derive the two rounded percentages, `0` when the window is empty. -/
def analyzeAMAMTimeRange (policies : List AMAMPolicy) : AnalysisResult :=
  let positiveCount :=
    policies.countP fun p => classifyAMAMPolicy p.Status p.PolicyDate p.PaidtoDate = .positive
  let negativeCount :=
    policies.countP fun p => ¬ (classifyAMAMPolicy p.Status p.PolicyDate p.PaidtoDate = .positive)
  let total := positiveCount + negativeCount
  let positivePercentage : ℚ := if 0 < total then (positiveCount : ℚ) / (total : ℚ) * 100 else 0
  let negativePercentage : ℚ := if 0 < total then (negativeCount : ℚ) / (total : ℚ) * 100 else 0
  { positivePercentage := round2 positivePercentage
    positiveCount := positiveCount
    negativePercentage := round2 negativePercentage
    negativeCount := negativeCount }

/-- The at-risk status set of `extractLapsePoliciesFromAMAM`. -/
def amamAtRiskStatuses : List String := ["Act-Pastdue", "IssNotPaid", "Pending", "NeedReqmnt"]

/-- Id of one AMAM lapse candidate: `p.Policy || template-with-random`.
The `rand` oracle supplies the printed `Math.random()` text for the
candidate at each position of the filtered list; it is consulted only
when `Policy` is falsy, as in the source. -/
def amamLapseId (rand : Nat → String) (i : Nat) (p : AMAMPolicy) : String :=
  if p.Policy ≠ "" then p.Policy
  else p.FirstName ++ "-" ++ p.LastName ++ "-" ++ rand i

/-- `p.Phone || null`. -/
def orNullStr : Option String → Option String
  | none => none
  | some s => if s = "" then none else some s

/-- Mapping step of `extractLapsePoliciesFromAMAM` at position `i` of
the filtered list. -/
def amamLapseCandidate (rand : Nat → String) (i : Nat) (p : AMAMPolicy) : LapseCandidate :=
  { id := amamLapseId rand i p
    carrier := "American Amicable"
    insuredFirstName := p.FirstName
    insuredLastName := p.LastName
    phone := orNullStr p.Phone
    statuses := [p.Status]
    daysToLapse := none }

/-- Position-indexed map over the filtered list. -/
def amamLapseGo (rand : Nat → String) : Nat → List AMAMPolicy → List LapseCandidate
  | _, [] => []
  | i, p :: rest => amamLapseCandidate rand i p :: amamLapseGo rand (i + 1) rest

/-- `extractLapsePoliciesFromAMAM(policies)`: keep the at-risk statuses,
then build the unified records.  `Math.random()` is the oracle `rand`. -/
def extractLapsePoliciesFromAMAM (rand : Nat → String) (policies : List AMAMPolicy) :
    List LapseCandidate :=
  amamLapseGo rand 0 (policies.filter fun p => amamAtRiskStatuses.contains p.Status)

/-! ## Combined Insurance (part_007) -/

/-- A Combined CSV row (`CombinedPolicyData`), restricted to the fields
the lapse extractor reads; `first_name`, `last_name` and `phone` come
through the index signature and may be absent. -/
structure CombinedPolicy where
  policy_number : String
  status : String
  effective_date : String
  first_name : Option String
  last_name : Option String
  phone : Option String
deriving DecidableEq, Repr

/-- `x || ''` on a possibly-absent string field. -/
def orEmptyStr : Option String → String
  | none => ""
  | some s => s

/-- Mapping step of `extractLapsePoliciesFromCombined` at position `i`
of the filtered list. -/
def combinedLapseCandidate (rand : Nat → String) (i : Nat) (p : CombinedPolicy) :
    LapseCandidate :=
  { id := if p.policy_number ≠ "" then p.policy_number else "combined-" ++ rand i
    carrier := "Combined"
    insuredFirstName := orEmptyStr p.first_name
    insuredLastName := orEmptyStr p.last_name
    phone := orNullStr p.phone
    statuses := ["Lapse-Pending"]
    daysToLapse := none }

/-- Position-indexed map over the filtered list. -/
def combinedLapseGo (rand : Nat → String) : Nat → List CombinedPolicy → List LapseCandidate
  | _, [] => []
  | i, p :: rest => combinedLapseCandidate rand i p :: combinedLapseGo rand (i + 1) rest

/-- `extractLapsePoliciesFromCombined(policies)`: keep `Lapse-Pending`
rows, then build the unified records.  `Math.random()` is the oracle
`rand`. -/
def extractLapsePoliciesFromCombined (rand : Nat → String) (policies : List CombinedPolicy) :
    List LapseCandidate :=
  combinedLapseGo rand 0 (policies.filter fun p => p.status = "Lapse-Pending")

/-! ## Royal Neighbors of America (route.ts) -/

/-- A Royal Neighbors CSV row (`RoyalNeighborsPolicyData`), restricted
to the two fields the analysis reads. -/
structure RNAPolicy where
  CurrentContractStatusReason1 : String
  ActivationDate1 : String
deriving DecidableEq, Repr

/-- The negative status set of `classifyRoyalNeighborsStatus`. -/
def rnaNegativeStatuses : List String :=
  ["CON TERM NT NO PAY", "CON TERM WITHDRAWN", "CON TERM INCOMPLETE", "CON TERM LAPSED"]

/-- The positive status set of `classifyRoyalNeighborsStatus`. -/
def rnaPositiveStatuses : List String :=
  ["CONTRACT ACTIVE", "CON SUS DEATH PENDING", "CON TERM DEATH CLAIM",
   "CON ACT REINSTATEMENT", "CON TERM MATURED"]

/-- `classifyRoyalNeighborsStatus(status)`: trim, look the value up in
the positive then the negative set, default `neutral`. -/
def classifyRoyalNeighborsStatus (status : String) : Outcome :=
  let s := jsTrim status
  if rnaPositiveStatuses.contains s then .positive
  else if rnaNegativeStatuses.contains s then .negative
  else .neutral

/-- Result of a JS date-parsing helper that may `throw`, return an
Invalid Date, or return a valid date. -/
inductive JSParseResult
  | threw
  | invalid
  | ok (d : JSDate)
deriving DecidableEq, Repr

/-- Whether a parse produced a valid date. -/
def JSParseResult.isOk : JSParseResult → Bool
  | .ok _ => true
  | _ => false

/-- Shared shape of the `MM/DD/YYYY`- and `YYYY-MM-DD`-style branches:
split on the separator, coerce with `Number`, and build the date; a
`NaN` component yields an Invalid Date. -/
def rnaBranchDate (sep : Char) (yearFirst : Bool) (t : String) : JSParseResult :=
  let parts := jsSplit t sep
  let comps :=
    if yearFirst then
      (jsNumberCell parts[0]?, jsNumberCell parts[1]?, jsNumberCell parts[2]?)
    else
      (jsNumberCell parts[2]?, jsNumberCell parts[0]?, jsNumberCell parts[1]?)
  match comps with
  | (some year, some month, some day) => .ok (jsMakeDate year (month - 1) day)
  | _ => .invalid

/-- `parseRoyalNeighborsDate(dateStr)`: throw on an empty string, try
the dash format, then the slash format, then `new Date(trimmed)` — the
latter is the oracle `gp` (`none` meaning an Invalid Date, which makes
the function throw). -/
def parseRoyalNeighborsDate (gp : String → Option JSDate) (dateStr : String) : JSParseResult :=
  if dateStr = "" then .threw
  else
    let trimmed := jsTrim dateStr
    if jsIncludesChar trimmed '-' then rnaBranchDate '-' true trimmed
    else if jsIncludesChar trimmed '/' then rnaBranchDate '/' false trimmed
    else
      match gp trimmed with
      | some d => .ok d
      | none => .threw

/-- `filterRoyalNeighborsByRange(policies, monthsBack)` with the clock
reading `now` explicit: keep rows whose activation date parses to a
valid date on or after the calendar cutoff; a throw is caught and the
row dropped, and an Invalid Date fails the comparison. -/
def filterRoyalNeighborsByRange (gp : String → Option JSDate) (now : JSDate)
    (policies : List RNAPolicy) (monthsBack : Int) : List RNAPolicy :=
  let cutoff := calendarCutoff now monthsBack
  policies.filter fun p =>
    match parseRoyalNeighborsDate gp p.ActivationDate1 with
    | .ok d => cutoff.epochDays ≤ d.epochDays
    | _ => false

/-- `analyzeRoyalNeighborsTimeRange(policies)`: count the positive and
negative classifications (neutral rows touch neither counter) and
derive the rounded percentages, `0` on an empty denominator. -/
def analyzeRoyalNeighborsTimeRange (policies : List RNAPolicy) : AnalysisResult :=
  let positiveCount :=
    policies.countP fun p => classifyRoyalNeighborsStatus p.CurrentContractStatusReason1 = .positive
  let negativeCount :=
    policies.countP fun p => classifyRoyalNeighborsStatus p.CurrentContractStatusReason1 = .negative
  let total := positiveCount + negativeCount
  let posPct : ℚ := if 0 < total then (positiveCount : ℚ) / (total : ℚ) * 100 else 0
  let negPct : ℚ := if 0 < total then (negativeCount : ℚ) / (total : ℚ) * 100 else 0
  { positivePercentage := round2 posPct
    positiveCount := positiveCount
    negativePercentage := round2 negPct
    negativeCount := negativeCount }

/-- Increment the counter of key `k` in an insertion-ordered counts
list, appending a fresh entry when absent — the behaviour of
`counts[k] = (counts[k] || 0) + 1` on a JS object. -/
def bumpCount {α : Type} [DecidableEq α] (k : α) : List (α × Nat) → List (α × Nat)
  | [] => [(k, 1)]
  | (k2, c) :: rest => if k2 = k then (k2, c + 1) :: rest else (k2, c) :: bumpCount k rest

/-- The `counts` object of `getRoyalNeighborsStatusBreakdownLimited`:
one pass over the policies, skipping rows whose trimmed status is
empty. -/
def rnaStatusCounts (policies : List RNAPolicy) : List (String × Nat) :=
  policies.foldl
    (fun acc p =>
      let status := jsTrim p.CurrentContractStatusReason1
      if status = "" then acc else bumpCount status acc)
    []

/-- The comparator `(a, b) => b[1] - a[1]` as a Lean relation: sort by
descending count.  A stable sort under this relation coincides with the
engine's stable `Array.prototype.sort`. -/
def rnaCmp (a b : String × Nat) : Prop := b.2 ≤ a.2

instance : DecidableRel rnaCmp := fun a b => inferInstanceAs (Decidable (b.2 ≤ a.2))

/-- `getRoyalNeighborsStatusBreakdownLimited(policies)`: count statuses,
sort descending, keep the top 7 individually and collapse the rest into
an `Other` bucket when non-empty; percentages are over all counted
rows. -/
def getRoyalNeighborsStatusBreakdownLimited (policies : List RNAPolicy) :
    List BreakdownEntry :=
  let entries := (rnaStatusCounts policies).insertionSort rnaCmp
  let top := entries.take 7
  let rest := entries.drop 7
  let total := (entries.map (fun e => e.2)).sum
  let topEntries := top.map fun e =>
    { status := e.1, count := e.2
      percentage := if 0 < total then round2 ((e.2 : ℚ) / (total : ℚ) * 100) else 0 }
  let otherCount := (rest.map (fun e => e.2)).sum
  topEntries ++
    (if 0 < otherCount then
      [{ status := "Other", count := otherCount
         percentage := if 0 < total then round2 ((otherCount : ℚ) / (total : ℚ) * 100) else 0 }]
    else [])

/-- The full per-carrier result `analyzeRoyalNeighbors` returns. -/
structure RoyalNeighborsAnalysis where
  r3 : AnalysisResult
  r6 : AnalysisResult
  r9 : AnalysisResult
  rAll : AnalysisResult
  b3 : List BreakdownEntry
  b6 : List BreakdownEntry
  b9 : List BreakdownEntry
  bAll : List BreakdownEntry
  totalPolicies : Nat
  persistencyRate : ℚ
deriving DecidableEq, Repr

/-- `analyzeRoyalNeighbors(fileContent)` after parsing, with the clock
reading `now` and the generic-date-parse oracle `gp` explicit: the 3/6/9
windows analyse the filtered lists, the `All` window analyses the whole
list with no date restriction. -/
def analyzeRoyalNeighbors (gp : String → Option JSDate) (now : JSDate)
    (policies : List RNAPolicy) : RoyalNeighborsAnalysis :=
  let p3 := filterRoyalNeighborsByRange gp now policies 3
  let p6 := filterRoyalNeighborsByRange gp now policies 6
  let p9 := filterRoyalNeighborsByRange gp now policies 9
  let rAll := analyzeRoyalNeighborsTimeRange policies
  { r3 := analyzeRoyalNeighborsTimeRange p3
    r6 := analyzeRoyalNeighborsTimeRange p6
    r9 := analyzeRoyalNeighborsTimeRange p9
    rAll := rAll
    b3 := getRoyalNeighborsStatusBreakdownLimited p3
    b6 := getRoyalNeighborsStatusBreakdownLimited p6
    b9 := getRoyalNeighborsStatusBreakdownLimited p9
    bAll := getRoyalNeighborsStatusBreakdownLimited policies
    totalPolicies := policies.length
    persistencyRate := rAll.positivePercentage }

/-! ## Aetna (route.ts `analyzeAetnaPolicies`) -/

/-- An Aetna spreadsheet row (`AetnaPolicyData`), restricted to the two
fields `analyzeAetnaPolicies` reads; both may be absent. -/
structure AetnaPolicy where
  STATUSCATEGORY : Option String
  ISSUEDATE : Option String
deriving DecidableEq, Repr

/-- `policy.STATUSCATEGORY?.trim()`. -/
def aetnaStatusCategory (p : AetnaPolicy) : Option String :=
  p.STATUSCATEGORY.map jsTrim

/-- The `switch (statusCategory)` of `analyzeAetnaPolicies`: `Active` is
positive; `Withdrawn`, `Lapsed`, `Terminated` and `Closed` are negative;
the enumerated pipeline statuses and everything else (including a
missing category) are neutral. -/
def aetnaPersistencyImpact (p : AetnaPolicy) : Outcome :=
  match aetnaStatusCategory p with
  | some "Active" => .positive
  | some "Withdrawn" => .negative
  | some "Lapsed" => .negative
  | some "Terminated" => .negative
  | some "Closed" => .negative
  | _ => .neutral

/-- One validated-format branch of the route.ts `parseAetnaDate`: the
string must split into exactly three components, all numeric, otherwise
the branch falls through (unlike the Royal Neighbors parser, which
returns an Invalid Date). -/
def aetnaBranchDate (sep : Char) (yearFirst : Bool) (t : String) : Option JSDate :=
  if jsIncludesChar t sep then
    let parts := jsSplit t sep
    if parts.length = 3 then
      let comps :=
        if yearFirst then
          (jsNumberCell parts[0]?, jsNumberCell parts[1]?, jsNumberCell parts[2]?)
        else
          (jsNumberCell parts[2]?, jsNumberCell parts[0]?, jsNumberCell parts[1]?)
      match comps with
      | (some year, some month, some day) => some (jsMakeDate year (month - 1) day)
      | _ => none
    else none
  else none

/-- route.ts `parseAetnaDate(dateStr)`: throw on a blank string, try the
validated `YYYY-MM-DD` branch, then the validated `MM/DD/YYYY` branch,
then `new Date(trimmed)` (the oracle `gp`), and throw when everything
fails.  `none` models a throw; no branch can return an Invalid Date. -/
def parseAetnaDate (gp : String → Option JSDate) (dateStr : String) : Option JSDate :=
  if jsTrim dateStr = "" then none
  else
    let trimmedDate := jsTrim dateStr
    match aetnaBranchDate '-' true trimmedDate with
    | some d => some d
    | none =>
      match aetnaBranchDate '/' false trimmedDate with
      | some d => some d
      | none => gp trimmedDate

/-- The issue date `analyzeAetnaPolicies` works with: `none` when the
row is skipped (missing or blank `ISSUEDATE`, or a parse throw caught by
the loop's `try`/`catch`). -/
def aetnaIssueDate (gp : String → Option JSDate) (p : AetnaPolicy) : Option JSDate :=
  match p.ISSUEDATE with
  | none => none
  | some s => if s = "" then none else parseAetnaDate gp s

/-- `monthsSinceIssue`: `Math.floor((now - issue) / (1000*60*60*24*30))`
on the millisecond clock reading `nowMs` — months approximated as 30
days, not calendar months. -/
def aetnaMonthsSinceIssue (nowMs : Int) (issue : JSDate) : Int :=
  (nowMs - issue.epochDays * msPerDay).fdiv (msPerDay * 30)

/-- `monthsSinceIssue <= rangeMonths`, the range being `some w` for the
`'3'`/`'6'`/`'9'` buckets and `none` for `'All'` (`Infinity`). -/
def aetnaInRange (nowMs : Int) (issue : JSDate) : Option Nat → Bool
  | none => true
  | some w => aetnaMonthsSinceIssue nowMs issue ≤ (w : Int)

/-- Whether a policy enters a given range's counters: it must survive
the skip checks and its 30-day month distance must fit the range. -/
def aetnaSelected (gp : String → Option JSDate) (nowMs : Int) (range : Option Nat)
    (p : AetnaPolicy) : Bool :=
  match aetnaIssueDate gp p with
  | some d => aetnaInRange nowMs d range
  | none => false

/-- The `positiveCount` accumulated for a range by the
`analyzeAetnaPolicies` loop. -/
def aetnaPositiveCount (gp : String → Option JSDate) (nowMs : Int) (range : Option Nat)
    (policies : List AetnaPolicy) : Nat :=
  policies.countP fun p => aetnaSelected gp nowMs range p && aetnaPersistencyImpact p = .positive

/-- The `negativeCount` accumulated for a range by the
`analyzeAetnaPolicies` loop. -/
def aetnaNegativeCount (gp : String → Option JSDate) (nowMs : Int) (range : Option Nat)
    (policies : List AetnaPolicy) : Nat :=
  policies.countP fun p => aetnaSelected gp nowMs range p && aetnaPersistencyImpact p = .negative

/-- The number of policies that enter a range at all. -/
def aetnaSelectedCount (gp : String → Option JSDate) (nowMs : Int) (range : Option Nat)
    (policies : List AetnaPolicy) : Nat :=
  policies.countP fun p => aetnaSelected gp nowMs range p

/-- The `statusBreakdowns[range]` object accumulated by the loop: every
selected policy is counted under its (possibly missing) trimmed
`STATUSCATEGORY`, regardless of persistency impact. -/
def aetnaBreakdownCounts (gp : String → Option JSDate) (nowMs : Int) (range : Option Nat)
    (policies : List AetnaPolicy) : List (Option String × Nat) :=
  policies.foldl
    (fun acc p => if aetnaSelected gp nowMs range p then bumpCount (aetnaStatusCategory p) acc else acc)
    []

/-- Sum of the per-status counters of an Aetna breakdown. -/
def aetnaBreakdownTotal (gp : String → Option JSDate) (nowMs : Int) (range : Option Nat)
    (policies : List AetnaPolicy) : Nat :=
  ((aetnaBreakdownCounts gp nowMs range policies).map (fun e => e.2)).sum

/-! ## Lapse action and severity (LapseTable.tsx) -/

/-- Severity tier of a lapse candidate. -/
inductive Severity
  | critical
  | high
  | medium
  | low
deriving DecidableEq, Repr

/-- The record `deriveActionAndSeverity` returns. -/
structure ActionAndSeverity where
  action : String
  severity : Severity
deriving DecidableEq, Repr

/-- `deriveActionAndSeverity(statuses)` of LapseTable.tsx: the ordered
`if` chain over status membership. -/
def deriveActionAndSeverity (statuses : List String) : ActionAndSeverity :=
  if statuses.contains "Lapse-Pending" then
    { action := "Policy is about to lapse - contact client immediately", severity := .critical }
  else if statuses.contains "Act-Pastdue" || statuses.contains "IssNotPaid" then
    { action := "Notify client to pay outstanding premium", severity := .high }
  else if statuses.contains "Pending" || statuses.contains "NeedReqmnt" then
    { action := "Missing information - review with carrier to determine next steps",
      severity := .medium }
  else
    { action := "Monitor", severity := .low }

/-- Top-down evaluation of an ordered rule table: the first rule whose
predicate matches wins, the fallback applies when none does. -/
def firstMatch (rules : List ((List String → Bool) × ActionAndSeverity))
    (fallback : ActionAndSeverity) (statuses : List String) : ActionAndSeverity :=
  match rules with
  | [] => fallback
  | (p, r) :: rest => if p statuses then r else firstMatch rest fallback statuses

/-- The generic monitor fallback named by the spec. -/
def monitorFallback : ActionAndSeverity := { action := "Monitor", severity := .low }

/-- The rule table exactly as the claim words it (spec sentence): a
payment-overdue family to `high` with the outstanding-premium action, a
missing-paperwork family to `medium`, everything else to the monitor
fallback.  Written from the spec, to be compared with the source. -/
def claimRuleTable : List ((List String → Bool) × ActionAndSeverity) :=
  [(fun statuses => statuses.contains "Act-Pastdue" || statuses.contains "IssNotPaid",
    { action := "Notify client to pay outstanding premium", severity := .high }),
   (fun statuses => statuses.contains "Pending" || statuses.contains "NeedReqmnt",
    { action := "Missing information - review with carrier to determine next steps",
      severity := .medium })]

/-- The derivation the claim describes: `firstMatch` over
`claimRuleTable`. -/
def claimDeriveActionAndSeverity (statuses : List String) : ActionAndSeverity :=
  firstMatch claimRuleTable monitorFallback statuses

/-- The amended rule table: the source's `Lapse-Pending → critical` rule
precedes the payment-overdue family. -/
def amendedRuleTable : List ((List String → Bool) × ActionAndSeverity) :=
  (fun statuses => statuses.contains "Lapse-Pending",
    { action := "Policy is about to lapse - contact client immediately",
      severity := Severity.critical }) :: claimRuleTable

/-! ## Agent-scope filter (part_007 POST handler) -/

/-- The characters the scope filter strips from a writing-agent number:
`agentNumber.replace(/[="()]/g, '')`. -/
def formulaWrapperChars : List Char := ['=', Char.ofNat 34, '(', ')']

/-- `agentNumber.replace(/[="()]/g, '').trim()`. -/
def cleanAgentNumber (s : String) : String :=
  jsTrim (String.mk (s.data.filter fun c => ¬ formulaWrapperChars.contains c))

/-- `shouldIncludePolicy(agentNumber)` with the captured request state
(`filterMode`, `writingAgentNumbers`) explicit: include everything when
no mode is set or the allow-list is empty, otherwise test cleaned
membership. -/
def shouldIncludePolicy (filterMode : Option String) (writingAgentNumbers : List String)
    (agentNumber : String) : Bool :=
  if !jsTruthy filterMode || writingAgentNumbers.length = 0 then true
  else writingAgentNumbers.contains (cleanAgentNumber agentNumber)

/-- The guarded application in the POST handler: `if (filterMode &&
writingAgentNumbers.length > 0) policies = policies.filter(...)`. -/
def applyAgentFilter (filterMode : Option String) (writingAgentNumbers : List String)
    (policies : List AMAMPolicy) : List AMAMPolicy :=
  if jsTruthy filterMode && 0 < writingAgentNumbers.length then
    policies.filter fun p => shouldIncludePolicy filterMode writingAgentNumbers p.WritingAgent
  else policies

/-- The `writing_agent_numbers` form field as the handler sees it:
absent, present but not valid JSON, or a parsed string array. -/
inductive AgentNumbersParam
  | absent
  | malformed
  | parsed (xs : List String)

/-- The `writingAgentNumbers` value after the handler's parse step: it
starts `[]` and is only replaced by a successful `JSON.parse`. -/
def resolveAgentNumbers : AgentNumbersParam → List String
  | .absent => []
  | .malformed => []
  | .parsed xs => xs

/-- A sample row whose writing-agent cell still carries the CSV formula
wrapper, for evaluating the scope filter at a concrete input. -/
def scopedSamplePolicy : AMAMPolicy :=
  { WritingAgent := "=(07)", Policy := "P1", Status := "Active", PolicyDate := "",
    PaidtoDate := "", FirstName := "A", LastName := "B", Phone := none }

/-! ## Helper lemmas -/

/-- Two disjoint counters bounded by a dominating counter. -/
theorem countP_add_countP_le_countP {α : Type} (l : List α) (p q r : α → Bool)
    (hpr : ∀ a, p a = true → r a = true) (hqr : ∀ a, q a = true → r a = true)
    (hpq : ∀ a, p a = true → q a = false) :
    l.countP p + l.countP q ≤ l.countP r := by
  induction l with
  | nil => simp
  | cons a tl ih =>
    simp only [List.countP_cons]
    by_cases hp : p a = true
    · have hr := hpr a hp
      have hq := hpq a hp
      simp [hp, hq, hr]
      omega
    · by_cases hq : q a = true
      · have hr := hqr a hq
        simp [hp, hq, hr]
        omega
      · simp only [Bool.not_eq_true] at hp hq
        simp [hp, hq]
        omega

/-- Bumping a key adds exactly one to the summed counters. -/
theorem bumpCount_sum {κ : Type} [DecidableEq κ] (k : κ) (acc : List (κ × Nat)) :
    ((bumpCount k acc).map (fun e => e.2)).sum = ((acc.map (fun e => e.2)).sum) + 1 := by
  induction acc with
  | nil => simp [bumpCount]
  | cons hd tl ih =>
    obtain ⟨k2, c⟩ := hd
    by_cases h : k2 = k
    · simp [bumpCount, h]
      omega
    · simp [bumpCount, h, ih]
      omega

/-- Summed counters of a conditional-bump fold: the accumulator's sum
plus the number of selected elements. -/
theorem foldl_bump_sum {α κ : Type} [DecidableEq κ] (key : α → κ) (sel : α → Bool) :
    ∀ (l : List α) (acc : List (κ × Nat)),
      (((List.foldl (fun acc a => if sel a then bumpCount (key a) acc else acc) acc l).map
          (fun e => e.2)).sum)
        = ((acc.map (fun e => e.2)).sum) + l.countP sel := by
  intro l
  induction l with
  | nil => simp
  | cons a tl ih =>
    intro acc
    simp only [List.foldl_cons, List.countP_cons]
    by_cases h : sel a = true
    · simp only [h, if_true, ih, bumpCount_sum]
      omega
    · simp only [Bool.not_eq_true] at h
      simp [h, ih]

/-- The summed counters of `rnaStatusCounts`: the number of rows with a
non-blank trimmed status. -/
theorem rnaStatusCounts_sum (policies : List RNAPolicy) :
    ((rnaStatusCounts policies).map (fun e => e.2)).sum
      = policies.countP fun p => !(jsTrim p.CurrentContractStatusReason1 == "") := by
  have hstep :
      (fun (acc : List (String × Nat)) (p : RNAPolicy) =>
        let status := jsTrim p.CurrentContractStatusReason1
        if status = "" then acc else bumpCount status acc)
      = (fun acc p =>
          if (!(jsTrim p.CurrentContractStatusReason1 == "")) = true then
            bumpCount (jsTrim p.CurrentContractStatusReason1) acc
          else acc) := by
    funext acc p
    by_cases h : jsTrim p.CurrentContractStatusReason1 = "" <;> simp [h]
  unfold rnaStatusCounts
  rw [hstep, foldl_bump_sum (fun p => jsTrim p.CurrentContractStatusReason1)
    (fun p => !(jsTrim p.CurrentContractStatusReason1 == "")) policies []]
  simp

/-- `breakdownTotalCount` distributes over append. -/
theorem breakdownTotalCount_append (a b : List BreakdownEntry) :
    breakdownTotalCount (a ++ b) = breakdownTotalCount a + breakdownTotalCount b := by
  simp [breakdownTotalCount]

/-- `breakdownTotalCount` of assembled entries recovers the raw counts,
whatever the percentage field holds. -/
theorem breakdownTotalCount_mk_map (l : List (String × Nat)) (pf : String × Nat → ℚ) :
    breakdownTotalCount
        (l.map fun e => { status := e.1, count := e.2, percentage := pf e })
      = (l.map (fun e => e.2)).sum := by
  induction l with
  | nil => simp [breakdownTotalCount]
  | cons a tl ih => simp [breakdownTotalCount] at ih ⊢; omega

/-- The summed `count` fields of the limited Royal Neighbors breakdown
equal the number of rows with a non-blank trimmed status: the top-7
truncation moves counts into `Other` without losing any. -/
theorem rna_breakdown_total (policies : List RNAPolicy) :
    breakdownTotalCount (getRoyalNeighborsStatusBreakdownLimited policies)
      = policies.countP fun p => !(jsTrim p.CurrentContractStatusReason1 == "") := by
  have hsum :=
    (((List.perm_insertionSort rnaCmp (rnaStatusCounts policies)).map
      (fun e : String × Nat => e.2))).sum_eq
  have hsplit :
      ((((rnaStatusCounts policies).insertionSort rnaCmp).take 7).map (fun e => e.2)).sum
          + ((((rnaStatusCounts policies).insertionSort rnaCmp).drop 7).map
              (fun e => e.2)).sum
        = (((rnaStatusCounts policies).insertionSort rnaCmp).map (fun e => e.2)).sum := by
    rw [List.map_take, List.map_drop]
    exact List.sum_take_add_sum_drop _ 7
  simp only [getRoyalNeighborsStatusBreakdownLimited, breakdownTotalCount_append,
    breakdownTotalCount_mk_map]
  rw [← rnaStatusCounts_sum policies, ← hsum, ← hsplit]
  by_cases hoc :
      0 < ((((rnaStatusCounts policies).insertionSort rnaCmp).drop 7).map
        (fun e => e.2)).sum
  · rw [if_pos hoc]
    simp [breakdownTotalCount]
  · rw [if_neg hoc]
    simp only [breakdownTotalCount, List.map_nil, List.sum_nil]
    omega

/-- Quotient-and-round arithmetic shared by every per-window percentage:
guarding the quotient inside the rounding step is the same as guarding
outside it, and an empty denominator yields exactly `0`. -/
theorem pct_formula (pos neg : ℕ) :
    round2 (if 0 < pos + neg then (pos : ℚ) / ((pos + neg : ℕ) : ℚ) * 100 else 0)
      = if pos + neg = 0 then 0
        else round2 ((pos : ℚ) / ((pos + neg : ℕ) : ℚ) * 100) := by
  by_cases h : pos + neg = 0
  · have hz : Int.floor ((0 : ℚ) * 100 + 1/2) = 0 := by
      have h12 : (0 : ℚ) * 100 + 1/2 = 1/2 := by ring
      rw [h12, Int.floor_eq_zero_iff, Set.mem_Ico]
      norm_num
    simp [h, round2, jsRound, hz]
    norm_num
  · simp [h, Nat.pos_of_ne_zero h]

/-! ## Claim theorems -/

/-- C1 (code_bug evidence): `classifyAMAMPolicy` does *not* default a
death-claim record with a missing or unparseable secondary date to
`negative`.  The `try`/`catch` fallback never fires for string inputs:
`parseAMAMDate` yields an Invalid Date, `monthsDifference` is `NaN`,
the JS comparison `NaN <= 24` is `false`, and the `positive` arm is
taken — for an unparseable `"N/A"` and for an empty `PaidtoDate`
alike, contradicting the spec's default-to-negative edge case. -/
theorem amam_deathclaim_unparseable_secondary_positive :
    parseAMAMDate "N/A" = none
    ∧ parseAMAMDate "" = none
    ∧ classifyAMAMPolicy "DeathClaim" "01/15/2020" "N/A" = .positive
    ∧ classifyAMAMPolicy "DeathClaim" "01/15/2020" "" = .positive := by
  decide

/-- C3: in every window, `positivePercentage` equals
`positiveCount / (positiveCount + negativeCount) * 100` rounded to two
decimal places, and equals `0` (a plain rational zero, no `NaN` and no
error) whenever the denominator is zero. -/
theorem amam_positivePercentage_formula (policies : List AMAMPolicy) :
    (analyzeAMAMTimeRange policies).positivePercentage
      = if (analyzeAMAMTimeRange policies).positiveCount
            + (analyzeAMAMTimeRange policies).negativeCount = 0 then 0
        else round2 (((analyzeAMAMTimeRange policies).positiveCount : ℚ)
          / (((analyzeAMAMTimeRange policies).positiveCount
              + (analyzeAMAMTimeRange policies).negativeCount : ℕ) : ℚ) * 100) := by
  simp only [analyzeAMAMTimeRange]
  exact pct_formula _ _

/-- C4: the `All` window's positive and negative counters dominate each
month-window's counters, for the American Amicable filter pipeline (the
month windows analyse a sublist of the full list) and for the Aetna
30-day-bucket loop in route.ts (a finite range bound only shrinks the
selection the `All` range admits). -/
theorem all_window_counts_dominate (now : JSDate) (policies : List AMAMPolicy)
    (monthsBack : Int) (gp : String → Option JSDate) (nowMs : Int) (w : Nat)
    (aetnaPolicies : List AetnaPolicy) :
    (analyzeAMAMTimeRange (filterAMAMPoliciesByTimeRange now policies monthsBack)).positiveCount
        ≤ (analyzeAMAMTimeRange policies).positiveCount
    ∧ (analyzeAMAMTimeRange (filterAMAMPoliciesByTimeRange now policies monthsBack)).negativeCount
        ≤ (analyzeAMAMTimeRange policies).negativeCount
    ∧ aetnaPositiveCount gp nowMs (some w) aetnaPolicies
        ≤ aetnaPositiveCount gp nowMs none aetnaPolicies
    ∧ aetnaNegativeCount gp nowMs (some w) aetnaPolicies
        ≤ aetnaNegativeCount gp nowMs none aetnaPolicies := by
  have hsel : ∀ p : AetnaPolicy,
      aetnaSelected gp nowMs (some w) p = true → aetnaSelected gp nowMs none p = true := by
    intro p hp
    cases hd : aetnaIssueDate gp p with
    | some d => simp [aetnaSelected, hd, aetnaInRange]
    | none => simp [aetnaSelected, hd] at hp
  refine ⟨?_, ?_, ?_, ?_⟩
  · simp only [analyzeAMAMTimeRange, filterAMAMPoliciesByTimeRange]
    exact (List.filter_sublist _).countP_le _
  · simp only [analyzeAMAMTimeRange, filterAMAMPoliciesByTimeRange]
    exact (List.filter_sublist _).countP_le _
  · unfold aetnaPositiveCount
    refine List.countP_mono_left fun p _ hp => ?_
    simp only [Bool.and_eq_true] at hp ⊢
    exact ⟨hsel p hp.1, hp.2⟩
  · unfold aetnaNegativeCount
    refine List.countP_mono_left fun p _ hp => ?_
    simp only [Bool.and_eq_true] at hp ⊢
    exact ⟨hsel p hp.1, hp.2⟩

/-- C9 (counterexample): the claim's three-rule table is not what the
source evaluates — on the status list `["Lapse-Pending"]`, which the
Combined at-risk predicate observes, the source returns the `critical`
immediate-contact rule while the claim's table falls through to the
`low`/`Monitor` fallback. -/
theorem derive_lapse_pending_breaks_claim_table :
    deriveActionAndSeverity ["Lapse-Pending"]
      ≠ claimDeriveActionAndSeverity ["Lapse-Pending"] := by
  decide

/-- C9 (amended): `deriveActionAndSeverity` is the top-down first-match
evaluation of the ordered rule table that *starts with* the
`Lapse-Pending → critical` rule and then continues with the claim's
payment-overdue (`high`, outstanding-premium action) and
missing-paperwork (`medium`) families, defaulting to the `low`/`Monitor`
fallback. -/
theorem derive_eq_amended_rule_table (statuses : List String) :
    deriveActionAndSeverity statuses
      = firstMatch amendedRuleTable monitorFallback statuses := by
  rfl

/-- C10: when a filter mode is supplied but the parsed allow-list is
empty — the form field absent, present but unparseable JSON, or a
parsed empty array — the agent-scope filter passes every policy through
unchanged, and `shouldIncludePolicy` accepts every agent number. -/
theorem empty_allow_list_includes_all (filterMode : Option String)
    (policies : List AMAMPolicy) (agentNumber : String) :
    applyAgentFilter filterMode (resolveAgentNumbers .absent) policies = policies
    ∧ applyAgentFilter filterMode (resolveAgentNumbers .malformed) policies = policies
    ∧ applyAgentFilter filterMode (resolveAgentNumbers (.parsed [])) policies = policies
    ∧ shouldIncludePolicy filterMode [] agentNumber = true := by
  simp [applyAgentFilter, resolveAgentNumbers, shouldIncludePolicy]

/-- C5 (counterexample): the route.ts Aetna analyzer does not select by
calendar-month subtraction.  With the clock at 2024-03-31, the policy
issued 2023-12-05 lies 117 days back, so `Math.floor(117/30) = 3 <= 3`
admits it to the 3-month window — yet 2023-12-05 is strictly before the
calendar cutoff `new Date(2024, 2 - 3, 31)` = 2023-12-31, so the claimed
selection rule would reject it. -/
theorem aetna_thirty_day_window_not_calendar :
    aetnaSelected (fun _ => none) ((jsMakeDate 2024 2 31).epochDays * msPerDay) (some 3)
        { STATUSCATEGORY := some "Active", ISSUEDATE := some "12/05/2023" } = true
    ∧ aetnaIssueDate (fun _ => none)
        { STATUSCATEGORY := some "Active", ISSUEDATE := some "12/05/2023" }
        = some (jsMakeDate 2023 11 5)
    ∧ (jsMakeDate 2023 11 5).epochDays
        < (calendarCutoff (jsMakeDate 2024 2 31) 3).epochDays := by
  decide

/-- C5 (amended): the filter-style pipelines select a policy for window
`w` exactly when its reference date parses and is on or after
`new Date(year, month - w, day)` of the clock reading — pure
calendar-month subtraction (shown for the cited American Amicable
filter) — whereas the route.ts Aetna analyzer selects exactly when the
issue date survives the skip checks and
`Math.floor((now - issue) / 30 days) <= w`, a 30-day approximation. -/
theorem time_window_selection_rule (now : JSDate) (policies : List AMAMPolicy)
    (monthsBack : Int) (p : AMAMPolicy) (gp : String → Option JSDate) (nowMs : Int)
    (w : Nat) (q : AetnaPolicy) :
    (p ∈ filterAMAMPoliciesByTimeRange now policies monthsBack
      ↔ p ∈ policies ∧ ∃ d, parseAMAMDate p.PolicyDate = some d
          ∧ (calendarCutoff now monthsBack).epochDays ≤ d.epochDays)
    ∧ (aetnaSelected gp nowMs (some w) q = true
      ↔ ∃ d, aetnaIssueDate gp q = some d
          ∧ aetnaMonthsSinceIssue nowMs d ≤ (w : Int)) := by
  constructor
  · simp only [filterAMAMPoliciesByTimeRange, List.mem_filter]
    refine and_congr_right fun _ => ?_
    cases h : parseAMAMDate p.PolicyDate with
    | some d => simp [h]
    | none => simp [h]
  · unfold aetnaSelected
    cases hd : aetnaIssueDate gp q with
    | some d => simp [hd, aetnaInRange]
    | none => simp [hd]

/-- C6 (counterexample): a Royal Neighbors record whose reference date
is missing is excluded from the month windows (the parse throws) yet is
still counted by the `All` window, which route.ts computes over the
unfiltered policy list — the claim that such a record contributes to no
window's counts is false. -/
theorem rna_unparseable_date_counted_in_all :
    parseRoyalNeighborsDate (fun _ => none) "" = .threw
    ∧ (analyzeRoyalNeighbors (fun _ => none) (jsMakeDate 2024 0 15)
        [{ CurrentContractStatusReason1 := "CONTRACT ACTIVE",
           ActivationDate1 := "" }]).rAll.positiveCount = 1 := by
  decide

/-- C6 (amended): the 3/6/9-month windows select only policies whose
reference date parses to a valid date, but the `All` window is the
analysis of the whole policy list with no date restriction, so records
with missing or unparseable reference dates still contribute to the
`All` counts. -/
theorem rna_all_window_ignores_date_parse (gp : String → Option JSDate) (now : JSDate)
    (policies : List RNAPolicy) (monthsBack : Int) :
    (analyzeRoyalNeighbors gp now policies).rAll = analyzeRoyalNeighborsTimeRange policies
    ∧ (filterRoyalNeighborsByRange gp now policies monthsBack).all
        (fun p => (parseRoyalNeighborsDate gp p.ActivationDate1).isOk) = true := by
  refine ⟨rfl, ?_⟩
  rw [List.all_eq_true]
  intro p hp
  simp only [filterRoyalNeighborsByRange, List.mem_filter] at hp
  obtain ⟨-, hpred⟩ := hp
  revert hpred
  cases h : parseRoyalNeighborsDate gp p.ActivationDate1 <;>
    simp [h, JSParseResult.isOk]

/-- C2 (counterexample): a Royal Neighbors record with a blank status is
classified `neutral` and is selected by the `All` window, yet the
breakdown skips blank statuses entirely, so the record is counted in no
`StatusBreakdown` — refuting the claim that every neutral policy in a
window appears in that window's breakdown. -/
theorem rna_blank_status_neutral_not_in_breakdown :
    classifyRoyalNeighborsStatus "" = .neutral
    ∧ (analyzeRoyalNeighbors (fun _ => none) (jsMakeDate 2024 0 15)
        [{ CurrentContractStatusReason1 := "",
           ActivationDate1 := "2024-01-10" }]).bAll = []
    ∧ (analyzeRoyalNeighbors (fun _ => none) (jsMakeDate 2024 0 15)
        [{ CurrentContractStatusReason1 := "",
           ActivationDate1 := "2024-01-10" }]).totalPolicies = 1 := by
  decide

/-- C2 (amended): in every window, `positiveCount + negativeCount` never
exceeds the number of selected policies, and neutral policies touch
neither counter; every selected policy is counted in the window's
`StatusBreakdown` — except that the Royal Neighbors breakdown omits
records whose trimmed status is blank (it counts exactly the non-blank
ones), while the Aetna breakdown counts every selected policy. -/
theorem window_counts_exclude_neutral (policies : List RNAPolicy) (p : RNAPolicy)
    (gp : String → Option JSDate) (nowMs : Int) (range : Option Nat)
    (aetnaPolicies : List AetnaPolicy) :
    (analyzeRoyalNeighborsTimeRange policies).positiveCount
        + (analyzeRoyalNeighborsTimeRange policies).negativeCount ≤ policies.length
    ∧ (classifyRoyalNeighborsStatus p.CurrentContractStatusReason1 = .neutral →
        (analyzeRoyalNeighborsTimeRange (policies ++ [p])).positiveCount
            = (analyzeRoyalNeighborsTimeRange policies).positiveCount
        ∧ (analyzeRoyalNeighborsTimeRange (policies ++ [p])).negativeCount
            = (analyzeRoyalNeighborsTimeRange policies).negativeCount)
    ∧ breakdownTotalCount (getRoyalNeighborsStatusBreakdownLimited policies)
        = policies.countP (fun q => !(jsTrim q.CurrentContractStatusReason1 == ""))
    ∧ aetnaPositiveCount gp nowMs range aetnaPolicies
          + aetnaNegativeCount gp nowMs range aetnaPolicies
        ≤ aetnaSelectedCount gp nowMs range aetnaPolicies
    ∧ aetnaBreakdownTotal gp nowMs range aetnaPolicies
        = aetnaSelectedCount gp nowMs range aetnaPolicies := by
  refine ⟨?_, ?_, rna_breakdown_total policies, ?_, ?_⟩
  · simp only [analyzeRoyalNeighborsTimeRange]
    calc policies.countP (fun q =>
            classifyRoyalNeighborsStatus q.CurrentContractStatusReason1 = .positive)
          + policies.countP (fun q =>
            classifyRoyalNeighborsStatus q.CurrentContractStatusReason1 = .negative)
        ≤ policies.countP (fun _ => true) := by
          refine countP_add_countP_le_countP policies _ _ _ (fun a _ => rfl)
            (fun a _ => rfl) fun a ha => ?_
          rw [decide_eq_true_iff] at ha
          simp [ha]
      _ = policies.length := congrFun List.countP_true policies
  · intro hn
    constructor <;>
      simp [analyzeRoyalNeighborsTimeRange, List.countP_append, List.countP_cons, hn]
  · refine countP_add_countP_le_countP aetnaPolicies _ _ _
      (fun a ha => ?_) (fun a ha => ?_) (fun a ha => ?_)
    · rw [Bool.and_eq_true] at ha
      exact ha.1
    · rw [Bool.and_eq_true] at ha
      exact ha.1
    · have h2 : aetnaPersistencyImpact a = Outcome.positive := by
        rw [Bool.and_eq_true] at ha
        simpa using ha.2
      simp [h2]
  · have := foldl_bump_sum (fun q : AetnaPolicy => aetnaStatusCategory q)
      (fun q => aetnaSelected gp nowMs range q) aetnaPolicies []
    simpa [aetnaBreakdownTotal, aetnaBreakdownCounts, aetnaSelectedCount] using this

/-- C2 (witness): the neutral-append clause of
`window_counts_exclude_neutral` at a concrete neutral record. -/
theorem window_counts_exclude_neutral_witness :
    (analyzeRoyalNeighborsTimeRange
        ([] ++ [{ CurrentContractStatusReason1 := "", ActivationDate1 := "x" }])).positiveCount
      = (analyzeRoyalNeighborsTimeRange ([] : List RNAPolicy)).positiveCount
    ∧ (analyzeRoyalNeighborsTimeRange
        ([] ++ [{ CurrentContractStatusReason1 := "", ActivationDate1 := "x" }])).negativeCount
      = (analyzeRoyalNeighborsTimeRange ([] : List RNAPolicy)).negativeCount :=
  (window_counts_exclude_neutral []
    { CurrentContractStatusReason1 := "", ActivationDate1 := "x" }
    (fun _ => none) 0 none []).2.1 (by decide)

/-- C7: the agent-scope filter is the identity when no filter mode is
set; applying it twice with the same allow-list equals applying it once;
and under an effective restriction (truthy mode, non-empty allow-list)
it retains exactly the policies whose writing-agent number, stripped of
the formula-wrapper characters and trimmed, belongs to the allow-list. -/
theorem agent_scope_filter_properties (filterMode : Option String)
    (writingAgentNumbers : List String) (policies : List AMAMPolicy) :
    applyAgentFilter none writingAgentNumbers policies = policies
    ∧ applyAgentFilter filterMode writingAgentNumbers
        (applyAgentFilter filterMode writingAgentNumbers policies)
      = applyAgentFilter filterMode writingAgentNumbers policies
    ∧ (jsTruthy filterMode = true → writingAgentNumbers ≠ [] →
        ∀ p, p ∈ applyAgentFilter filterMode writingAgentNumbers policies
          ↔ p ∈ policies ∧ cleanAgentNumber p.WritingAgent ∈ writingAgentNumbers) := by
  refine ⟨rfl, ?_, ?_⟩
  · unfold applyAgentFilter
    by_cases hg : (jsTruthy filterMode && decide (0 < writingAgentNumbers.length)) = true
    · simp only [hg, if_true, List.filter_filter, Bool.and_self]
    · simp only [Bool.not_eq_true] at hg
      simp [hg]
  · intro hm hne q
    have hlen : 0 < writingAgentNumbers.length := List.length_pos.mpr hne
    have hlen0 : ¬ writingAgentNumbers.length = 0 := Nat.pos_iff_ne_zero.mp hlen
    simp [applyAgentFilter, shouldIncludePolicy, hm, hlen, hlen0, List.mem_filter]

/-- C7 (witness): the restricted-membership clause of
`agent_scope_filter_properties` at a concrete scoped request. -/
theorem agent_scope_filter_properties_witness :
    scopedSamplePolicy ∈ applyAgentFilter (some "downline") ["07"] [scopedSamplePolicy]
      ↔ scopedSamplePolicy ∈ [scopedSamplePolicy]
        ∧ cleanAgentNumber scopedSamplePolicy.WritingAgent ∈ ["07"] :=
  (agent_scope_filter_properties (some "downline") ["07"] [scopedSamplePolicy]).2.2
    (by decide) (by decide) scopedSamplePolicy

/-- C8 (counterexample): the lapse-candidate `id` is not a function of
the input alone — a flagged American Amicable row with a blank `Policy`
number takes the `Math.random()`-embedding fallback id, so two runs
whose random draws print differently produce different outputs. -/
theorem lapse_id_depends_on_random :
    extractLapsePoliciesFromAMAM (fun _ => "0.1")
        [{ WritingAgent := "A", Policy := "", Status := "Pending", PolicyDate := "",
           PaidtoDate := "", FirstName := "Jo", LastName := "Doe", Phone := none }]
      ≠ extractLapsePoliciesFromAMAM (fun _ => "0.2")
        [{ WritingAgent := "A", Policy := "", Status := "Pending", PolicyDate := "",
           PaidtoDate := "", FirstName := "Jo", LastName := "Doe", Phone := none }] := by
  decide

/-- Randomness only enters an AMAM candidate through the blank-id
fallback. -/
theorem amamLapseGo_rand_irrelevant (rand1 rand2 : Nat → String) :
    ∀ (i : Nat) (l : List AMAMPolicy), l.all (fun p => p.Policy ≠ "") = true →
      amamLapseGo rand1 i l = amamLapseGo rand2 i l := by
  intro i l
  induction l generalizing i with
  | nil => intro _; rfl
  | cons p tl ih =>
    intro h
    rw [List.all_cons, Bool.and_eq_true] at h
    obtain ⟨hp, htl⟩ := h
    have hne := of_decide_eq_true hp
    simp [amamLapseGo, amamLapseCandidate, amamLapseId, hne, ih _ htl]

/-- Randomness only enters a Combined candidate through the blank-id
fallback. -/
theorem combinedLapseGo_rand_irrelevant (rand1 rand2 : Nat → String) :
    ∀ (i : Nat) (l : List CombinedPolicy), l.all (fun p => p.policy_number ≠ "") = true →
      combinedLapseGo rand1 i l = combinedLapseGo rand2 i l := by
  intro i l
  induction l generalizing i with
  | nil => intro _; rfl
  | cons p tl ih =>
    intro h
    rw [List.all_cons, Bool.and_eq_true] at h
    obtain ⟨hp, htl⟩ := h
    have hne := of_decide_eq_true hp
    simp [combinedLapseGo, combinedLapseCandidate, hne, ih _ htl]

/-- C8 (amended): the lapse extraction is deterministic — independent of
the `Math.random()` draws — provided every flagged row carries a
non-blank policy number; only the blank-policy-number fallback id can
differ between two runs on the same input. -/
theorem lapse_extraction_deterministic_with_policy_numbers
    (rand1 rand2 : Nat → String) (policies : List AMAMPolicy)
    (combinedPolicies : List CombinedPolicy) :
    ((policies.filter fun p => amamAtRiskStatuses.contains p.Status).all
        (fun p => p.Policy ≠ "") = true →
      extractLapsePoliciesFromAMAM rand1 policies
        = extractLapsePoliciesFromAMAM rand2 policies)
    ∧ ((combinedPolicies.filter fun p => p.status = "Lapse-Pending").all
        (fun p => p.policy_number ≠ "") = true →
      extractLapsePoliciesFromCombined rand1 combinedPolicies
        = extractLapsePoliciesFromCombined rand2 combinedPolicies) := by
  constructor
  · intro h
    exact amamLapseGo_rand_irrelevant rand1 rand2 0 _ h
  · intro h
    exact combinedLapseGo_rand_irrelevant rand1 rand2 0 _ h

/-- C8 (witness): `lapse_extraction_deterministic_with_policy_numbers`
at a flagged row carrying a policy number. -/
theorem lapse_extraction_deterministic_witness :
    extractLapsePoliciesFromAMAM (fun _ => "0.1")
        [{ WritingAgent := "A", Policy := "P123", Status := "Pending", PolicyDate := "",
           PaidtoDate := "", FirstName := "Jo", LastName := "Doe", Phone := none }]
      = extractLapsePoliciesFromAMAM (fun _ => "0.2")
        [{ WritingAgent := "A", Policy := "P123", Status := "Pending", PolicyDate := "",
           PaidtoDate := "", FirstName := "Jo", LastName := "Doe", Phone := none }] :=
  (lapse_extraction_deterministic_with_policy_numbers (fun _ => "0.1") (fun _ => "0.2")
    [{ WritingAgent := "A", Policy := "P123", Status := "Pending", PolicyDate := "",
       PaidtoDate := "", FirstName := "Jo", LastName := "Doe", Phone := none }] []).1
    (by decide)

end Persistency

